import Mathlib

/-!
Verification of the soweego record-linkage pipeline: a shallow embedding of
`soweego/validator/checks.py` and `soweego/linker/classify.py` /
`soweego/linker/evaluate.py`, with theorems about the reconciliation checker,
the width-reconciliation step, the post-classification corrector and the
evaluation engine.

Identifiers (QIDs, target ids), links and field values are strings; scores are
rationals.
-/

namespace Soweego

/-- Python exceptions raised by the embedded code. -/
inductive PyError where
  | valueError (msg : String)
  | attributeError (msg : String)
  | notImplementedError (msg : String)
  | typeError (msg : String)
  deriving DecidableEq, Repr

/-! ## Reconciliation checker: `soweego/validator/checks.py`, `_assess` -/

/-- One entry of the `wikidata` dict consumed by `_assess`: the per-QID
`identifiers` collection and the optional `links` set (`data.get('links')`
yields `None` when the key is absent). -/
structure SourceData where
  identifiers : List String
  links : Option (Finset String)

/-- The two accumulators `_assess` mutates: `to_deprecate` (a
`defaultdict(set)` keyed by target id) and `to_add` (a `defaultdict(set)`
keyed by QID). -/
structure AssessState where
  to_deprecate : String → Finset String
  to_add : String → Finset String

/-- Body of the inner `for target_id in identifiers` loop of `_assess`
(checks.py lines 277-298): skip when the target id is absent from `target` or
maps to an empty link list; otherwise intersect/diff the link sets, deprecate
on empty intersection and augment with the non-empty difference. -/
def assessStatement (target : List (String × List String)) (qid : String)
    (source_links : Finset String) (target_id : String) (st : AssessState) :
    AssessState :=
  match target.lookup target_id with
  | none => st
  | some target_links_list =>
    if target_links_list = [] then st
    else
      let target_links := target_links_list.toFinset
      let shared_links := source_links ∩ target_links
      let extra_links := target_links \ source_links
      let st1 :=
        if shared_links = ∅ then
          { st with to_deprecate := fun t =>
              if t = target_id then insert qid (st.to_deprecate t)
              else st.to_deprecate t }
        else st
      if extra_links ≠ ∅ then
        { st1 with to_add := fun q =>
            if q = qid then st1.to_add q ∪ extra_links else st1.to_add q }
      else st1

/-- Embedding of `_assess` (checks.py lines 269-298): iterate over the source dict; skip a
QID whose `links` entry is missing or empty, otherwise assess each of its
identifier statements. -/
def _assess (source : List (String × SourceData))
    (target : List (String × List String)) (st : AssessState) : AssessState :=
  source.foldl
    (fun acc entry =>
      match entry.2.links with
      | none => acc
      | some source_links =>
        if source_links = ∅ then acc
        else
          entry.2.identifiers.foldl
            (fun a target_id => assessStatement target entry.1 source_links target_id a)
            acc)
    st

/-! ## Width reconciliation: `soweego/linker/classify.py`, `_add_missing_feature_columns` -/

/-- The classifier object loaded from the persisted model, as dispatched on by
the `isinstance` chain of `_add_missing_feature_columns` (classify.py lines
304-316).  Each supported kind carries the quantity the code reads off its
kernel (`len(kernel._binarizers)`, `kernel.coef_.shape[1]`,
`kernel.input_shape[1]`).  `otherObject` is any other Python object:
`dunderName` models its `__name__` attribute (`none` when the attribute is
absent, the normal case for class instances) and `className` its
`__class__.__name__`. -/
inductive Classifier where
  | naiveBayesClassifier (binarizers : Nat)
  | svcClassifier (coefCols : Nat)
  | svmClassifier (coefCols : Nat)
  | singleLayerPerceptron (inputCols : Nat)
  | multiLayerPerceptron (inputCols : Nat)
  | otherObject (dunderName : Option String) (className : String)
  deriving DecidableEq, Repr

/-- The valid classifier kind set named by the unsupported-classifier message,
`set(constants.CLASSIFIERS)` with `CLASSIFIERS` from
`soweego/commons/constants.py` lines 142-147. -/
def CLASSIFIERS_NAMES : String :=
  "naive_bayes, support_vector_machines, nb, svm"

/-- The `isinstance` dispatch of `_add_missing_feature_columns` (classify.py
lines 304-316): read the expected feature count off the classifier kernel, or
fall through to the `else` branch, which evaluates `classifier.__name__`
while building the `ValueError` message — on an object with no `__name__`
attribute that lookup itself raises `AttributeError` first. -/
def expectedFeatureCount : Classifier → Except PyError Nat
  | .naiveBayesClassifier binarizers => .ok binarizers
  | .svcClassifier coefCols => .ok coefCols
  | .svmClassifier coefCols => .ok coefCols
  | .singleLayerPerceptron inputCols => .ok inputCols
  | .multiLayerPerceptron inputCols => .ok inputCols
  | .otherObject dunderName className =>
    match dunderName with
    | none =>
      .error (.attributeError
        (className ++ " object has no attribute __name__"))
    | some nm =>
      .error (.valueError
        ("Unsupported classifier: " ++ nm ++ ". It should be one of "
          ++ CLASSIFIERS_NAMES))

/-- A pandas feature-vector DataFrame: a row count and named numeric columns
(`shape[1]` is the number of columns; `fv[name] = full(len(fv), v)` appends a
column of `v`s). -/
structure FeatureMatrix where
  nrows : Nat
  cols : List (String × List ℚ)
  deriving DecidableEq, Repr

/-- Modelled from the spec: `constants.FEATURE_MISSING_VALUE` is referenced by
classify.py line 324 but the constant is absent from src/; the spec only
requires "a dedicated sentinel value" for missing comparison outcomes, so any
fixed rational serves. -/
def FEATURE_MISSING_VALUE : ℚ := 25

/-- Embedding of `_add_missing_feature_columns` (classify.py lines 303-325): determine the
expected width, then, when it differs from the actual width, append
`range(expected - actual)` sentinel-valued columns named `missing_i` — a
negative difference yields an empty `range`, so a wider-than-expected matrix
is returned unchanged. -/
def _add_missing_feature_columns (classifier : Classifier)
    (feature_vectors : FeatureMatrix) : Except PyError FeatureMatrix :=
  match expectedFeatureCount classifier with
  | .error e => .error e
  | .ok expected_features =>
    let actual_features := feature_vectors.cols.length
    if expected_features = actual_features then .ok feature_vectors
    else
      .ok { feature_vectors with
            cols := feature_vectors.cols ++
              (List.range (expected_features - actual_features)).map
                (fun i =>
                  ("missing_" ++ toString i,
                   List.replicate feature_vectors.nrows FEATURE_MISSING_VALUE)) }

/-! ## Post-classification corrector: `soweego/linker/classify.py` lines 239-300 -/

/-- One DataFrame cell: either pandas `nan` or a collection of string
values/tokens. -/
inductive Cell where
  | nan
  | vals (vs : List String)
  deriving DecidableEq, Repr

/-- A record DataFrame (the `wikidata` / `target` chunks): its column set and
a cell per (row id, column).  `df.get(column)` is `None` exactly when the
column is absent from `columns`. -/
structure DataFrame where
  columns : List String
  cells : String → String → Cell

/-- Embedding of `keys.URL`: the URL field name, `'url'` per
`soweego/commons/constants.py` line 121. -/
def URL : String := "url"

/-- The value-collecting loop of `_zero_when_not_exact_match` (classify.py
lines 264-280): over the override fields, union the cell's values into the
accumulator, skipping absent columns and `nan` cells. -/
def collectFieldValues (df : DataFrame) (rowId : String)
    (fields : List String) : Finset String :=
  fields.foldl
    (fun acc column =>
      if column ∈ df.columns then
        match df.cells rowId column with
        | .nan => acc
        | .vals vs => acc ∪ vs.toFinset
      else acc)
    ∅

/-- A prediction entry: the (QID, TID) pair of the series index and the raw
score. -/
abbrev Prediction := (String × String) × ℚ

/-- Embedding of `_zero_when_not_exact_match` (classify.py lines 256-282): collect the
override-field value sets on both sides of the pair; return `0.0` when they
are disjoint (`set.isdisjoint`), else the raw score `prediction[0]`. -/
def _zero_when_not_exact_match (prediction : Prediction)
    (fields : List String) (wikidata target : DataFrame) : ℚ :=
  let wd_values := collectFieldValues wikidata prediction.1.1 fields
  let target_values := collectFieldValues target prediction.1.2 fields
  if wd_values ∩ target_values = ∅ then 0 else prediction.2

/-- Embedding of `_post_classification_blocking` (classify.py lines 239-253): apply the
veto row-wise, but only when some field to block on was actually given. -/
def _post_classification_blocking (predictions : List Prediction)
    (wd_chunk target_chunk : DataFrame) (post_block_fields : List String) :
    List Prediction :=
  if post_block_fields.isEmpty then predictions
  else
    predictions.map
      (fun p => (p.1, _zero_when_not_exact_match p post_block_fields wd_chunk target_chunk))

/-- Contiguous-subsequence test on character lists (Python's `in` on
strings). -/
def containsSeq (pat : List Char) : List Char → Bool
  | [] => pat.isEmpty
  | c :: rest => pat.isPrefixOf (c :: rest) || containsSeq pat rest

/-- Python `'wikidata' in u`: substring test. -/
def containsWikidata (u : String) : Bool :=
  containsSeq "wikidata".toList u.toList

/-- Python `re.search(r'(Q\d+)$', u)`: the match succeeds iff `u` ends in a non-empty
digit run immediately preceded by `Q`; the captured group is that trailing
`Q<digits>`. -/
def qidSuffix (u : String) : Option String :=
  let rev := u.toList.reverse
  let digits := rev.takeWhile Char.isDigit
  if digits ≠ [] ∧ (rev.drop digits.length).head? = some 'Q' then
    some (String.mk ('Q' :: digits.reverse))
  else none

/-- The `for u in urls` loop of `_one_when_wikidata_link_correct` (classify.py
lines 290-298): the first non-empty URL containing `wikidata` and ending in a
`Q<digits>` pattern decides the score (`1.0` on QID match, else `0`); when no
URL decides, fall through to the raw score. -/
def scanUrls (qid : String) (raw : ℚ) : List String → ℚ
  | [] => raw
  | u :: rest =>
    if u ≠ "" then
      if containsWikidata u then
        match qidSuffix u with
        | some q => if qid = q then 1 else 0
        | none => scanUrls qid raw rest
      else scanUrls qid raw rest
    else scanUrls qid raw rest

/-- Embedding of `_one_when_wikidata_link_correct` (classify.py lines 285-300): read the
target record's URL cell; an empty collection (falsy) passes the raw score
through, a `nan` cell is truthy but not iterable, so the `for` raises
`TypeError`. -/
def _one_when_wikidata_link_correct (prediction : Prediction)
    (target : DataFrame) : Except PyError ℚ :=
  match target.cells prediction.1.2 URL with
  | .nan => .error (.typeError "float object is not iterable")
  | .vals urls =>
    if urls = [] then .ok prediction.2
    else .ok (scanUrls prediction.1.1 prediction.2 urls)

/-- The URL that decides `scanUrls`: the first non-empty one containing
`wikidata` and ending in `Q<digits>`. -/
def findDecisiveUrl : List String → Option String
  | [] => none
  | u :: rest =>
    if u ≠ "" ∧ containsWikidata u ∧ (qidSuffix u).isSome then some u
    else findDecisiveUrl rest

/-! ## Thresholding and deduplication: `soweego/linker/classify.py` lines 151 and 231 -/

/-- pandas `Series.drop_duplicates()` with the default `keep='first'`: keep an
entry iff its value has not been seen yet. -/
def drop_duplicates (seen : List ℚ) : List Prediction → List Prediction
  | [] => []
  | e :: rest =>
    if e.2 ∈ seen then drop_duplicates seen rest
    else e :: drop_duplicates (e.2 :: seen) rest

/-- Embedding of `predictions[predictions >= threshold].drop_duplicates()` (classify.py
lines 151 and 231). -/
def thresholdAndDedup (threshold : ℚ) (predictions : List Prediction) :
    List Prediction :=
  drop_duplicates [] (predictions.filter (fun e => threshold ≤ e.2))

/-! ## Nested k-fold with grid search: `soweego/linker/evaluate.py` lines 287-330 -/

/-- Modelled from the spec: `keys.SINGLE_LAYER_PERCEPTRON` (module
`soweego.commons.keys` is absent from src/); the kind tag of the single-layer
neural classifier. -/
def SINGLE_LAYER_PERCEPTRON : String := "single_layer_perceptron"

/-- Modelled from the spec: `keys.MULTI_LAYER_PERCEPTRON` (module
`soweego.commons.keys` is absent from src/); the kind tag of the multi-layer
neural classifier. -/
def MULTI_LAYER_PERCEPTRON : String := "multi_layer_perceptron"

/-- The observable stages of `nested_k_fold_with_grid_search` after its guard,
in program order. -/
inductive EvalEvent where
  | buildDataset
  | initModel
  | gridSearchFold (fold : Nat)
  deriving DecidableEq, Repr

/-- Embedding of `nested_k_fold_with_grid_search` (evaluate.py lines 287-330): the neural
kinds are rejected with `NotImplementedError` before anything else runs.
Modelled from the spec: the work following the guard (`train.build_dataset`,
`workflow.init_model`, the outer-fold grid-search loop — their modules are
absent from src/) is modelled as the ordered trace of stages it executes. -/
def nested_k_fold_with_grid_search (classifier : String) (k : Nat) :
    Except PyError (List EvalEvent) :=
  if classifier = SINGLE_LAYER_PERCEPTRON ∨ classifier = MULTI_LAYER_PERCEPTRON then
    .error (.notImplementedError
      ("Grid search for " ++ classifier ++ " is not supported"))
  else
    .ok ([EvalEvent.buildDataset, EvalEvent.initModel] ++
      (List.range k).map EvalEvent.gridSearchFold)

/-! ## Theorems -/

/-- The all-empty initial accumulator state (a fresh `defaultdict(set)` on
each side). -/
def emptyState : AssessState := ⟨fun _ => ∅, fun _ => ∅⟩

/-- C1: for an identifier statement from a QID with a non-empty source link
set to a target id present in the target collection with a non-empty link
list, the checker deprecates (target id, QID) iff the intersection of the two
link sets is empty, and the augmentation set of the QID becomes its previous
value united with the target-minus-source difference (so every extra link is
added, and something is added iff the difference is non-empty); the two
decisions are independent conjuncts. -/
theorem assess_deprecation_and_augmentation_rules
    (target : List (String × List String)) (qid target_id : String)
    (source_links : Finset String) (st : AssessState)
    (target_links_list : List String)
    (hsrc : source_links ≠ ∅)
    (hlook : target.lookup target_id = some target_links_list)
    (hne : target_links_list ≠ [])
    (hfresh : qid ∉ st.to_deprecate target_id) :
    (qid ∈ (assessStatement target qid source_links target_id st).to_deprecate target_id
        ↔ source_links ∩ target_links_list.toFinset = ∅)
    ∧ (assessStatement target qid source_links target_id st).to_add qid
        = st.to_add qid ∪ (target_links_list.toFinset \ source_links) := by
  simp only [assessStatement, hlook, if_neg hne]
  split_ifs with hextra hshared hshared
  · simp [hshared]
  · simp [hshared, hfresh]
  · push_neg at hextra
    simp [hshared, hextra]
  · push_neg at hextra
    simp [hshared, hextra, hfresh]

/-- C1 witness: the spec's example — sourceLinks(Q2) = ⦃a⦄,
targetLinks(T2) = [c]: shared is empty (deprecate) and extra = ⦃c⦄ is
added. -/
theorem assess_deprecation_and_augmentation_rules_witness :
    ("Q2" ∈ (assessStatement [("T2", ["c"])] "Q2" {"a"} "T2" emptyState).to_deprecate "T2"
        ↔ ({"a"} : Finset String) ∩ (["c"] : List String).toFinset = ∅)
    ∧ (assessStatement [("T2", ["c"])] "Q2" {"a"} "T2" emptyState).to_add "Q2"
        = emptyState.to_add "Q2" ∪ ((["c"] : List String).toFinset \ {"a"}) :=
  assess_deprecation_and_augmentation_rules [("T2", ["c"])] "Q2" "T2" {"a"}
    emptyState ["c"] (by decide) rfl (by decide) (by decide)

/-- C10: an identifier statement whose target id is absent from the target
link collection, or maps to an empty link list, leaves the accumulator state
entirely unchanged. -/
theorem assess_skips_absent_or_empty_target
    (target : List (String × List String)) (qid target_id : String)
    (source_links : Finset String) (st : AssessState)
    (h : target.lookup target_id = none ∨ target.lookup target_id = some []) :
    assessStatement target qid source_links target_id st = st := by
  rcases h with h | h <;> simp [assessStatement, h]

/-- C10 witness: a statement for T1, which maps to an empty link list in the
target collection, is skipped. -/
theorem assess_skips_absent_or_empty_target_witness :
    assessStatement [("T1", [])] "Q1" {"a"} "T1" emptyState = emptyState :=
  assess_skips_absent_or_empty_target [("T1", [])] "Q1" "T1" {"a"} emptyState
    (Or.inr rfl)

/-- C2: for a feature matrix of `w` columns and a classifier expecting
`e ≥ w`, width reconciliation succeeds with a matrix of exactly `e` columns
whose first `w` columns are unchanged and whose trailing `e - w` columns are
sentinel-valued throughout. -/
theorem width_reconciliation_pads_with_sentinel
    (classifier : Classifier) (fv : FeatureMatrix) (e w : Nat)
    (he : expectedFeatureCount classifier = Except.ok e)
    (hw : fv.cols.length = w) (hge : w ≤ e) :
    ∃ fv', _add_missing_feature_columns classifier fv = Except.ok fv' ∧
      fv'.cols.length = e ∧
      fv'.cols.take w = fv.cols ∧
      ∀ p ∈ fv'.cols.drop w, ∀ x ∈ p.2, x = FEATURE_MISSING_VALUE := by
  subst hw
  simp only [_add_missing_feature_columns, he]
  by_cases hcase : e = fv.cols.length
  · refine ⟨fv, by rw [if_pos hcase], hcase.symm, List.take_length fv.cols, ?_⟩
    simp
  · rw [if_neg hcase]
    refine ⟨_, rfl, ?_, ?_, ?_⟩
    · simp only [List.length_append, List.length_map, List.length_range]
      omega
    · exact List.take_left _ _
    · rw [List.drop_left]
      intro p hp x hx
      simp only [List.mem_map, List.mem_range] at hp
      obtain ⟨i, -, rfl⟩ := hp
      exact List.eq_of_mem_replicate hx

/-- C2 witness: a 2-column, 1-row matrix against a naive-Bayes model
expecting 3 columns. -/
theorem width_reconciliation_pads_with_sentinel_witness :
    ∃ fv', _add_missing_feature_columns (Classifier.naiveBayesClassifier 3)
        ⟨1, [("f0", [2]), ("f1", [3])]⟩ = Except.ok fv' ∧
      fv'.cols.length = 3 ∧
      fv'.cols.take 2 = [("f0", [2]), ("f1", [3])] ∧
      ∀ p ∈ fv'.cols.drop 2, ∀ x ∈ p.2, x = FEATURE_MISSING_VALUE :=
  width_reconciliation_pads_with_sentinel (Classifier.naiveBayesClassifier 3)
    ⟨1, [("f0", [2]), ("f1", [3])]⟩ 3 2 rfl rfl (by decide)

/-- C3 counterexample: a 2-column matrix against a naive-Bayes model
expecting 1 column is returned unchanged with no error — the step does not
fail fast on a wider-than-expected matrix. -/
theorem width_reconciliation_wider_counterexample :
    _add_missing_feature_columns (Classifier.naiveBayesClassifier 1)
      ⟨1, [("f0", [2]), ("f1", [3])]⟩
      = Except.ok ⟨1, [("f0", [2]), ("f1", [3])]⟩ := rfl

/-- C3 amended: for a feature matrix strictly wider than the classifier's
expected input width, width reconciliation does not auto-correct but does not
raise either: it returns the matrix unchanged (the `range` over the negative
difference is empty) and inference proceeds. -/
theorem width_reconciliation_wider_is_unchanged
    (classifier : Classifier) (fv : FeatureMatrix) (e : Nat)
    (he : expectedFeatureCount classifier = Except.ok e)
    (hlt : e < fv.cols.length) :
    _add_missing_feature_columns classifier fv = Except.ok fv := by
  simp only [_add_missing_feature_columns, he]
  rw [if_neg (by omega)]
  have hzero : e - fv.cols.length = 0 := by omega
  simp [hzero]

/-- C3 amended witness: the 2-column matrix against the 1-column model passes
through unchanged. -/
theorem width_reconciliation_wider_is_unchanged_witness :
    _add_missing_feature_columns (Classifier.svmClassifier 1)
      ⟨1, [("f0", [2]), ("f1", [3])]⟩
      = Except.ok ⟨1, [("f0", [2]), ("f1", [3])]⟩ :=
  width_reconciliation_wider_is_unchanged (Classifier.svmClassifier 1)
    ⟨1, [("f0", [2]), ("f1", [3])]⟩ 1 rfl (by decide)

/-- C8: on an unsupported classifier object — a class instance, which has no
`__name__` attribute — the step raises `AttributeError` from evaluating
`classifier.__name__` inside the message f-string, not the intended
`ValueError` naming the classifier and the supported kind set. -/
theorem unsupported_classifier_raises_attribute_error :
    _add_missing_feature_columns (Classifier.otherObject none "ECMClassifier")
      ⟨1, [("f0", [2])]⟩
      = Except.error (PyError.attributeError
          "ECMClassifier object has no attribute __name__") := rfl

/-- C4: with a non-empty override field list, a pair whose two collected
value sets are disjoint scores exactly 0, a pair sharing at least one value
keeps its raw score, and with no override field configured the blocking step
is the identity on the predictions. -/
theorem post_classification_veto
    (fields : List String) (hf : fields ≠ [])
    (wikidata target : DataFrame) (p : Prediction) (preds : List Prediction) :
    (collectFieldValues wikidata p.1.1 fields ∩
        collectFieldValues target p.1.2 fields = ∅ →
      _zero_when_not_exact_match p fields wikidata target = 0)
    ∧ (collectFieldValues wikidata p.1.1 fields ∩
          collectFieldValues target p.1.2 fields ≠ ∅ →
        _zero_when_not_exact_match p fields wikidata target = p.2)
    ∧ _post_classification_blocking preds wikidata target [] = preds := by
  refine ⟨fun h => ?_, fun h => ?_, ?_⟩
  · simp [_zero_when_not_exact_match, h]
  · simp [_zero_when_not_exact_match, h]
  · simp [_post_classification_blocking]

/-- C4 witness: override field `name`, source values ⦃a⦄ against target
values ⦃b⦄ — disjoint, so the veto applies. -/
theorem post_classification_veto_witness :
    (collectFieldValues ⟨["name"], fun _ _ => Cell.vals ["a"]⟩ "Q1" ["name"] ∩
        collectFieldValues ⟨["name"], fun _ _ => Cell.vals ["b"]⟩ "T1" ["name"] = ∅ →
      _zero_when_not_exact_match (("Q1", "T1"), 3/4) ["name"]
        ⟨["name"], fun _ _ => Cell.vals ["a"]⟩
        ⟨["name"], fun _ _ => Cell.vals ["b"]⟩ = 0)
    ∧ (collectFieldValues ⟨["name"], fun _ _ => Cell.vals ["a"]⟩ "Q1" ["name"] ∩
          collectFieldValues ⟨["name"], fun _ _ => Cell.vals ["b"]⟩ "T1" ["name"] ≠ ∅ →
        _zero_when_not_exact_match (("Q1", "T1"), 3/4) ["name"]
          ⟨["name"], fun _ _ => Cell.vals ["a"]⟩
          ⟨["name"], fun _ _ => Cell.vals ["b"]⟩ = 3/4)
    ∧ _post_classification_blocking [(("Q1", "T1"), 3/4)]
        ⟨["name"], fun _ _ => Cell.vals ["a"]⟩
        ⟨["name"], fun _ _ => Cell.vals ["b"]⟩ [] = [(("Q1", "T1"), 3/4)] :=
  post_classification_veto ["name"] (by decide)
    ⟨["name"], fun _ _ => Cell.vals ["a"]⟩
    ⟨["name"], fun _ _ => Cell.vals ["b"]⟩
    (("Q1", "T1"), 3/4) [(("Q1", "T1"), 3/4)]

/-- C9: when the override-field values are missing on both sides — both
collected value sets empty — the veto still fires: two empty sets are
disjoint, so the corrected score is 0 despite the absence of conflicting
evidence. -/
theorem empty_value_sets_are_vetoed
    (fields : List String) (hf : fields ≠ [])
    (wikidata target : DataFrame) (p : Prediction)
    (hw : collectFieldValues wikidata p.1.1 fields = ∅)
    (ht : collectFieldValues target p.1.2 fields = ∅) :
    _zero_when_not_exact_match p fields wikidata target = 0 := by
  simp [_zero_when_not_exact_match, hw, ht]

/-- C9 witness: `name` cells are `nan` on both sides, so both value sets are
empty and the raw score 9/10 is forced to 0. -/
theorem empty_value_sets_are_vetoed_witness :
    _zero_when_not_exact_match (("Q1", "T1"), 9/10) ["name"]
      ⟨["name"], fun _ _ => Cell.nan⟩ ⟨["name"], fun _ _ => Cell.nan⟩ = 0 :=
  empty_value_sets_are_vetoed ["name"] (by decide)
    ⟨["name"], fun _ _ => Cell.nan⟩ ⟨["name"], fun _ _ => Cell.nan⟩
    (("Q1", "T1"), 9/10) rfl rfl

/-- The URL loop returns `1` or `0` according to the first decisive URL: the
first non-empty one containing `wikidata` and carrying a trailing
`Q<digits>`. -/
theorem scanUrls_decisive (qid : String) (raw : ℚ) (urls : List String)
    (u : String) (hfind : findDecisiveUrl urls = some u)
    (q : String) (hq : qidSuffix u = some q) :
    scanUrls qid raw urls = if qid = q then 1 else 0 := by
  induction urls with
  | nil => simp [findDecisiveUrl] at hfind
  | cons head rest ih =>
    by_cases hcond : head ≠ "" ∧ containsWikidata head ∧ (qidSuffix head).isSome
    · rw [findDecisiveUrl, if_pos hcond] at hfind
      obtain rfl : head = u := by injection hfind
      obtain ⟨h1, h2, -⟩ := hcond
      rw [scanUrls, if_pos h1, if_pos h2, hq]
    · rw [findDecisiveUrl, if_neg hcond] at hfind
      have hrest := ih hfind
      by_cases h1 : head = ""
      · rw [scanUrls, if_neg (by simp [h1])]
        exact hrest
      · by_cases h2 : containsWikidata head
        · cases h3 : qidSuffix head with
          | none => rw [scanUrls, if_pos h1, if_pos h2, h3]; exact hrest
          | some q2 => exact absurd ⟨h1, h2, by simp [h3]⟩ hcond
        · rw [scanUrls, if_pos h1, if_neg (by simpa using h2)]
          exact hrest

/-- C5: for a pair whose target record carries a URL list whose decisive URL
(non-empty, containing `wikidata`, ending in `Q<digits>`) encodes identifier
`q`, the corrected score is forced to 1 when `q` equals the pair's QID and to
0 otherwise, overriding the raw score. -/
theorem self_reference_override
    (p : Prediction) (target : DataFrame) (urls : List String)
    (hcell : target.cells p.1.2 URL = Cell.vals urls)
    (u q : String) (hfind : findDecisiveUrl urls = some u)
    (hq : qidSuffix u = some q) :
    _one_when_wikidata_link_correct p target
      = Except.ok (if p.1.1 = q then 1 else 0) := by
  have hne : urls ≠ [] := by
    rintro rfl
    simp [findDecisiveUrl] at hfind
  simp only [_one_when_wikidata_link_correct, hcell, if_neg hne]
  rw [scanUrls_decisive p.1.1 p.2 urls u hfind q hq]

/-- C5 witness: the spec's example — target URL
`https://www.wikidata.org/wiki/Q42`; the pair (Q42, T1) with raw score 3/10
is forced to 1 and the pair (Q7, T1) with raw score 9/10 is forced to 0. -/
theorem self_reference_override_witness :
    _one_when_wikidata_link_correct (("Q42", "T1"), 3/10)
      ⟨["url"], fun _ _ => Cell.vals ["https://www.wikidata.org/wiki/Q42"]⟩
      = Except.ok 1
    ∧ _one_when_wikidata_link_correct (("Q7", "T1"), 9/10)
      ⟨["url"], fun _ _ => Cell.vals ["https://www.wikidata.org/wiki/Q42"]⟩
      = Except.ok 0 := by
  constructor
  · simpa using self_reference_override (("Q42", "T1"), 3/10)
      ⟨["url"], fun _ _ => Cell.vals ["https://www.wikidata.org/wiki/Q42"]⟩
      ["https://www.wikidata.org/wiki/Q42"] rfl
      "https://www.wikidata.org/wiki/Q42" "Q42" rfl rfl
  · simpa using self_reference_override (("Q7", "T1"), 9/10)
      ⟨["url"], fun _ _ => Cell.vals ["https://www.wikidata.org/wiki/Q42"]⟩
      ["https://www.wikidata.org/wiki/Q42"] rfl
      "https://www.wikidata.org/wiki/Q42" "Q42" rfl rfl

/-- Deduplication only ever keeps entries of its input. -/
theorem mem_drop_duplicates (seen : List ℚ) (l : List Prediction) :
    ∀ e ∈ drop_duplicates seen l, e ∈ l := by
  induction l generalizing seen with
  | nil => simp [drop_duplicates]
  | cons a rest ih =>
    intro e he
    rw [drop_duplicates] at he
    split_ifs at he with h
    · exact List.mem_cons_of_mem _ (ih seen e he)
    · rcases List.mem_cons.mp he with rfl | he
      · exact List.mem_cons_self _ _
      · exact List.mem_cons_of_mem _ (ih _ e he)

/-- The values surviving deduplication are pairwise distinct and were not
previously seen. -/
theorem drop_duplicates_values (l : List Prediction) : ∀ seen : List ℚ,
    ((drop_duplicates seen l).map (fun e => e.2)).Nodup
    ∧ ∀ v ∈ (drop_duplicates seen l).map (fun e => e.2), v ∉ seen := by
  induction l with
  | nil => intro seen; simp [drop_duplicates]
  | cons a rest ih =>
    intro seen
    rw [drop_duplicates]
    split_ifs with h
    · exact ih seen
    · have hrec := ih (a.2 :: seen)
      refine ⟨?_, ?_⟩
      · simp only [List.map_cons, List.nodup_cons]
        exact ⟨fun hmem => (hrec.2 a.2 hmem) (List.mem_cons_self _ _), hrec.1⟩
      · intro v hv
        simp only [List.map_cons, List.mem_cons] at hv
        rcases hv with rfl | hv
        · exact h
        · exact fun hs => hrec.2 v hv (List.mem_cons_of_mem _ hs)

/-- Deduplication is the identity on a list whose values are pairwise
distinct and disjoint from the seen set. -/
theorem drop_duplicates_of_clean (l : List Prediction) : ∀ seen : List ℚ,
    (l.map (fun e => e.2)).Nodup → (∀ v ∈ l.map (fun e => e.2), v ∉ seen) →
    drop_duplicates seen l = l := by
  induction l with
  | nil => intro seen _ _; rfl
  | cons a rest ih =>
    intro seen hnd hdisj
    rw [drop_duplicates, if_neg (hdisj a.2 (by simp))]
    simp only [List.map_cons, List.nodup_cons] at hnd
    congr 1
    refine ih _ hnd.2 fun v hv hmem => ?_
    rcases List.mem_cons.mp hmem with rfl | hs
    · exact hnd.1 hv
    · exact hdisj v (List.mem_cons_of_mem _ hv) hs

/-- C6: keeping the predictions at or above the threshold and then dropping
duplicates (keeping the first occurrence) is idempotent. -/
theorem threshold_dedup_idempotent (threshold : ℚ) (preds : List Prediction) :
    thresholdAndDedup threshold (thresholdAndDedup threshold preds)
      = thresholdAndDedup threshold preds := by
  unfold thresholdAndDedup
  have hfilter :
      (drop_duplicates [] (preds.filter fun e => threshold ≤ e.2)).filter
          (fun e => threshold ≤ e.2)
        = drop_duplicates [] (preds.filter fun e => threshold ≤ e.2) := by
    refine List.filter_eq_self.mpr fun a ha => ?_
    have hmem : a ∈ preds.filter (fun e => threshold ≤ e.2) :=
      mem_drop_duplicates _ _ a ha
    exact (List.mem_filter.mp hmem).2
  rw [hfilter]
  exact drop_duplicates_of_clean _ _ ((drop_duplicates_values _ []).1) (by simp)

/-- C7: a nested grid-search request against a neural kind fails at once with
the `not supported` error; the returned trace is absent — in particular no
dataset build and no fold ever runs. -/
theorem nested_grid_search_rejects_neural
    (classifier : String) (k : Nat)
    (h : classifier = SINGLE_LAYER_PERCEPTRON ∨ classifier = MULTI_LAYER_PERCEPTRON) :
    nested_k_fold_with_grid_search classifier k
      = Except.error (PyError.notImplementedError
          ("Grid search for " ++ classifier ++ " is not supported")) := by
  simp only [nested_k_fold_with_grid_search, if_pos h]

/-- C7 witness: a 5-fold nested request for the single-layer perceptron is
rejected. -/
theorem nested_grid_search_rejects_neural_witness :
    nested_k_fold_with_grid_search "single_layer_perceptron" 5
      = Except.error (PyError.notImplementedError
          ("Grid search for " ++ "single_layer_perceptron" ++ " is not supported")) :=
  nested_grid_search_rejects_neural "single_layer_perceptron" 5 (Or.inl rfl)
